import Mathlib

/-!
Verification of the BioAnalyzer curation-readiness extraction and validation
pipeline.  The definitions below are a shallow embedding of the Python source:

* `parse_enhanced_analysis` embeds `GeminiQA.parse_enhanced_analysis`
  (src/app/models/gemini_qa.py), the free-text section parser.
* `validate_field`, `check_pattern_match`, `enhance_extraction` embed
  `EnhancedFieldValidator` / `FieldExtractionEnhancer`
  (src/app/utils/field_validator.py).
* `store_analysis_result`, `get_analysis_result` (and the metadata/fulltext
  variants) embed `CacheManager` (src/app/services/cache_manager.py); the
  SQLite tables with `pmid` primary keys are modelled as row lists on which
  `INSERT OR REPLACE` deletes the conflicting row and appends the new row.

Python floats are modelled as rationals; Python strings as `String` with
hand-rolled helpers mirroring `str.strip`, `str.upper`, `str.lower`,
`in`-containment, `str.split` and the few regular expressions the source uses.
-/

namespace BioAnalyzer

/-! ## String helpers mirroring the Python primitives -/

/-- Characters accepted by Python's `str.strip()` and by the regex class
backslash-s (ASCII fragment). -/
def isPySpace (c : Char) : Bool :=
  c == ' ' || c == '\t' || c == '\n' || c == '\r' || c == '\x0b' || c == '\x0c'

/-- Python `str.strip()`. -/
def pyStrip (s : String) : String :=
  String.mk (((s.data.dropWhile isPySpace).reverse.dropWhile isPySpace).reverse)

/-- Python `str.upper()` (ASCII fragment). -/
def pyUpper (s : String) : String := String.mk (s.data.map Char.toUpper)

/-- Python `str.lower()` (ASCII fragment). -/
def pyLower (s : String) : String := String.mk (s.data.map Char.toLower)

/-- Whether the first list is a prefix of the second. -/
def isPrefixOfList : List Char → List Char → Bool
  | [], _ => true
  | _ :: _, [] => false
  | a :: as, b :: bs => (a == b) && isPrefixOfList as bs

/-- Whether `needle` occurs as a contiguous sublist. -/
def containsList (needle : List Char) : List Char → Bool
  | [] => needle.isEmpty
  | x :: xs => isPrefixOfList needle (x :: xs) || containsList needle xs

/-- Python `sub in s` on strings. -/
def pyContains (s sub : String) : Bool := containsList sub.data s.data

/-- Python `s.startswith(p)`. -/
def pyStartsWith (s p : String) : Bool := isPrefixOfList p.data s.data

/-- Python `s.split(sep)` for a one-character separator. -/
def splitOnChar (c : Char) : List Char → List (List Char)
  | [] => [[]]
  | x :: xs =>
    match splitOnChar c xs with
    | [] => [[]]
    | h :: t => if x == c then [] :: h :: t else (x :: h) :: t

/-- Python `s.split(sep)` at the string level. -/
def pySplitChar (s : String) (c : Char) : List String :=
  (splitOnChar c s.data).map String.mk

/-- Everything after the first occurrence of `c`, if any
(models `s.split(c, 1)[1]`). -/
def afterFirstChar (c : Char) : List Char → Option (List Char)
  | [] => none
  | x :: xs => if x == c then some xs else afterFirstChar c xs

/-- Models `line.split(":", 1)[1] if ":" in line else ""`. -/
def afterFirstColon (line : String) : String :=
  match afterFirstChar ':' line.data with
  | some rest => String.mk rest
  | none => ""

/-- Python `s.lstrip("- *")`. -/
def lstripDashStar (s : String) : String :=
  String.mk (s.data.dropWhile (fun c => c == '-' || c == ' ' || c == '*'))

/-- Models `[f.strip() for f in s.split(",") if f.strip()]`. -/
def parseCommaList (s : String) : List String :=
  ((pySplitChar s ',').map pyStrip).filter (fun x => x ≠ "")

/-- Accumulate a decimal digit string into a natural number. -/
def digitsToNat (acc : Nat) : List Char → Nat
  | [] => acc
  | c :: cs => digitsToNat (10 * acc + (c.toNat - 48)) cs

/-- Value of an integer part and a fractional digit part, as Python
`float()` of the matched text (represented exactly as a rational). -/
def parseNumber (intPart fracPart : List Char) : ℚ :=
  (digitsToNat 0 intPart : ℚ) + (digitsToNat 0 fracPart : ℚ) / (10 : ℚ) ^ fracPart.length

/-- First match of the numeric regex used by the parser
(digits, optional dot, digits) in a character list, converted by `float()`. -/
def findFirstNumber : List Char → Option ℚ
  | [] => none
  | c :: cs =>
    if c.isDigit then
      let intPart := (c :: cs).takeWhile Char.isDigit
      let rest := (c :: cs).drop intPart.length
      match rest with
      | '.' :: r2 => some (parseNumber intPart (r2.takeWhile Char.isDigit))
      | _ => some (parseNumber intPart [])
    else findFirstNumber cs

/-! ## SectionParser: `GeminiQA.parse_enhanced_analysis` -/

/-- Structured record produced by `parse_enhanced_analysis`
(the `curation_analysis` dictionary of the source). -/
structure CurationAnalysis where
  readiness : String
  explanation : String
  microbial_signatures : String
  signature_types : List String
  data_quality : String
  statistical_significance : String
  required_fields : List String
  missing_fields : List String
  data_completeness : String
  specific_reasons : List String
  confidence : ℚ
  examples : List String
  general_factors_present : List String
  human_animal_factors_present : List String
  environmental_factors_present : List String
  missing_critical_factors : List String
  factor_based_score : ℚ
deriving DecidableEq

/-- Initial record built at the top of `parse_enhanced_analysis`. -/
def initAnalysis : CurationAnalysis where
  readiness := "UNKNOWN"
  explanation := ""
  microbial_signatures := "Unknown"
  signature_types := []
  data_quality := "Unknown"
  statistical_significance := "Unknown"
  required_fields := []
  missing_fields := []
  data_completeness := "Unknown"
  specific_reasons := []
  confidence := 0
  examples := []
  general_factors_present := []
  human_animal_factors_present := []
  environmental_factors_present := []
  missing_critical_factors := []
  factor_based_score := 0

/-- Section-header detection: the fixed `elif` chain of substring tests over
the stripped line; a hit selects the new value of `current_section`. -/
def sectionOf (line : String) : Option String :=
  if pyContains line "CURATION READINESS ASSESSMENT:" then some "readiness"
  else if pyContains line "DETAILED EXPLANATION:" then some "explanation"
  else if pyContains line "FACTOR-BASED ANALYSIS:" then some "factor_analysis"
  else if pyContains line "MICROBIAL SIGNATURE ANALYSIS:" then some "signatures"
  else if pyContains line "CURATABLE CONTENT ASSESSMENT:" then some "content"
  else if pyContains line "SPECIFIC REASONS" then some "reasons"
  else if pyContains line "CONFIDENCE LEVEL:" then some "confidence"
  else if pyContains line "EXAMPLES AND EVIDENCE:" then some "examples"
  else none

/-- Readiness classification of one upper-cased line: the `if`/`elif` chain of
the readiness section, returning `none` when no branch assigns. -/
def classifyReadiness (line_upper : String) : Option String :=
  if pyContains line_upper "READY FOR CURATION" then some "READY"
  else if pyContains line_upper "NOT READY FOR CURATION" then some "NOT_READY"
  else if pyContains line_upper "READY" && !pyContains line_upper "NOT"
      && !pyContains line_upper "NOT READY" then some "READY"
  else if pyContains line_upper "NOT READY" then some "NOT_READY"
  else if pyContains line_upper "UNKNOWN" || pyContains line_upper "UNCLEAR" then some "UNKNOWN"
  else if pyContains line_upper "READY" || pyContains line_upper "NOT READY"
      || pyContains line_upper "UNKNOWN" then
    if pyContains line_upper "READY" && !pyContains line_upper "NOT" then some "READY"
    else if pyContains line_upper "NOT READY" then some "NOT_READY"
    else if pyContains line_upper "UNKNOWN" then some "UNKNOWN"
    else none
  else none

/-- Per-section content handling of one non-empty stripped line. -/
def processContent (current_section : String) (line : String) (r : CurationAnalysis) :
    CurationAnalysis :=
  if current_section = "readiness" then
    match classifyReadiness (pyUpper line) with
    | some v => { r with readiness := v }
    | none => r
  else if current_section = "explanation" then
    { r with explanation := r.explanation ++ line ++ " " }
  else if current_section = "factor_analysis" then
    if pyContains line "General Factors Present:" then
      { r with general_factors_present := parseCommaList (afterFirstColon line) }
    else if pyContains line "Human/Animal Factors Present:" then
      { r with human_animal_factors_present := parseCommaList (afterFirstColon line) }
    else if pyContains line "Environmental Factors Present:" then
      { r with environmental_factors_present := parseCommaList (afterFirstColon line) }
    else if pyContains line "Missing Critical Factors:" then
      { r with missing_critical_factors := parseCommaList (afterFirstColon line) }
    else r
  else if current_section = "signatures" then
    if pyContains line "Presence of microbial signatures:" then
      if pyContains (pyLower line) "yes" then { r with microbial_signatures := "Present" }
      else if pyContains (pyLower line) "no" then { r with microbial_signatures := "Absent" }
      else if pyContains (pyLower line) "partial" then { r with microbial_signatures := "Partial" }
      else r
    else if pyContains line "Types of signatures found:" then
      { r with signature_types := parseCommaList (afterFirstColon line) }
    else if pyContains line "Quality of signature data:" then
      if pyContains (pyLower line) "high" then { r with data_quality := "High" }
      else if pyContains (pyLower line) "medium" then { r with data_quality := "Medium" }
      else if pyContains (pyLower line) "low" then { r with data_quality := "Low" }
      else r
    else if pyContains line "Statistical significance:" then
      if pyContains (pyLower line) "yes" then { r with statistical_significance := "Yes" }
      else if pyContains (pyLower line) "no" then { r with statistical_significance := "No" }
      else if pyContains (pyLower line) "insufficient" then
        { r with statistical_significance := "Insufficient" }
      else r
    else r
  else if current_section = "content" then
    if pyContains line "Missing required fields:" then
      { r with missing_fields := parseCommaList (afterFirstColon line) }
    else if pyContains line "Data completeness:" then
      if pyContains (pyLower line) "complete" then { r with data_completeness := "Complete" }
      else if pyContains (pyLower line) "partial" then { r with data_completeness := "Partial" }
      else if pyContains (pyLower line) "insufficient" then
        { r with data_completeness := "Insufficient" }
      else r
    else r
  else if current_section = "reasons" then
    if pyStartsWith line "-" || pyStartsWith line "*" then
      { r with specific_reasons := r.specific_reasons ++ [pyStrip (lstripDashStar line)] }
    else r
  else if current_section = "confidence" then
    match findFirstNumber line.data with
    | some v => { r with confidence := v }
    | none => r
  else if current_section = "examples" then
    if pyStartsWith line "-" || pyStartsWith line "*" then
      { r with examples := r.examples ++ [pyStrip (lstripDashStar line)] }
    else r
  else r

/-- One iteration of the main loop: strip the line, skip blanks, switch
sections on a header, otherwise dispatch on the current section. -/
def processLine (st : String × CurationAnalysis) (raw_line : String) :
    String × CurationAnalysis :=
  let line := pyStrip raw_line
  if line = "" then st
  else
    match sectionOf line with
    | some sec => (sec, st.2)
    | none => (st.1, processContent st.1 line st.2)

/-- Total factor count used by the score computation
(`total_factors` in the source). -/
def totalFactors (r : CurationAnalysis) : Nat :=
  r.general_factors_present.length + r.human_animal_factors_present.length +
    r.environmental_factors_present.length

/-- Post-loop fixups: strip the accumulated explanation and derive
`factor_based_score = min(1.0, total_factors / 16)`. -/
def finalizeAnalysis (r : CurationAnalysis) : CurationAnalysis :=
  let r1 := { r with explanation := pyStrip r.explanation }
  { r1 with factor_based_score := min 1 ((totalFactors r1 : ℚ) / 16) }

/-- The section parser `GeminiQA.parse_enhanced_analysis`: split the input on
newlines, fold the line processor from an empty section, then finalize. -/
def parse_enhanced_analysis (analysis_text : String) : CurationAnalysis :=
  finalizeAnalysis ((pySplitChar analysis_text '\n').foldl processLine ("", initAnalysis)).2

/-! ## FieldValidator: `EnhancedFieldValidator` and `FieldExtractionEnhancer`

The validator works on Python values (strings, numbers, dicts, ...) coming
from parsed JSON, and on the small fragment of regular expressions that the
pattern catalogue uses: literal characters, an optional final character
(`s?`), one-or-more digits and zero-or-more whitespace. -/

/-- Regular-expression tokens covering the catalogue patterns. -/
inductive Tok where
  | lit (c : Char)
  | opt (c : Char)
  | dplus
  | dstar
  | wstar
deriving DecidableEq

/-- Fuel-indexed matcher for a token list against a prefix of the character
list, with backtracking; comparisons are case-insensitive as in
`re.IGNORECASE`.  Every recursive call strictly decreases
`2 * s.length + ts.length`, and the wrapper below supplies strictly more fuel
than that measure, so the zero-fuel branch is unreachable. -/
def matchToksF : Nat → List Tok → List Char → Bool
  | 0, _, _ => false
  | _ + 1, [], _ => true
  | _ + 1, Tok.lit _ :: _, [] => false
  | f + 1, Tok.lit c :: ts, x :: xs => (x.toLower == c) && matchToksF f ts xs
  | f + 1, Tok.opt _ :: ts, [] => matchToksF f ts []
  | f + 1, Tok.opt c :: ts, x :: xs =>
    ((x.toLower == c) && matchToksF f ts xs) || matchToksF f ts (x :: xs)
  | _ + 1, Tok.dplus :: _, [] => false
  | f + 1, Tok.dplus :: ts, x :: xs => x.isDigit && matchToksF f (Tok.dstar :: ts) xs
  | f + 1, Tok.dstar :: ts, [] => matchToksF f ts []
  | f + 1, Tok.dstar :: ts, x :: xs =>
    matchToksF f ts (x :: xs) || (x.isDigit && matchToksF f (Tok.dstar :: ts) xs)
  | f + 1, Tok.wstar :: ts, [] => matchToksF f ts []
  | f + 1, Tok.wstar :: ts, x :: xs =>
    matchToksF f ts (x :: xs) || (isPySpace x && matchToksF f (Tok.wstar :: ts) xs)

/-- Match a token list against a prefix of the character list. -/
def matchToks (ts : List Tok) (s : List Char) : Bool :=
  matchToksF (2 * s.length + ts.length + 1) ts s

/-- Match the token list at any start position (Python `re.search`). -/
def searchAux (ts : List Tok) : List Char → Bool
  | [] => matchToks ts []
  | x :: xs => matchToks ts (x :: xs) || searchAux ts xs

/-- Python `re.search(pattern, s, re.IGNORECASE) is not None`. -/
def reSearch (ts : List Tok) (s : String) : Bool := searchAux ts s.data

/-- Literal pattern: each character matched verbatim. -/
def lits (s : String) : List Tok := s.data.map Tok.lit

/-- Python values as they occur in the extracted-data dictionaries. -/
inductive Value where
  | str (s : String)
  | intV (n : Int)
  | floatV (q : ℚ)
  | boolV (b : Bool)
  | listV (xs : List Value)
  | dictV (fields : List (String × Value))
  | noneV

/-- Python type name, used in attribute-error messages. -/
def pyTypeName : Value → String
  | .str _ => "str"
  | .intV _ => "int"
  | .floatV _ => "float"
  | .boolV _ => "bool"
  | .listV _ => "list"
  | .dictV _ => "dict"
  | .noneV => "NoneType"

/-- Python truthiness test `not value`. -/
def isFalsy : Value → Bool
  | .str s => s == ""
  | .intV n => n == 0
  | .floatV q => q == 0
  | .boolV b => !b
  | .listV xs => xs.isEmpty
  | .dictV d => d.isEmpty
  | .noneV => true

/-- Reading a string attribute: `.lower()` on a non-string raises. -/
def valAsStr : Value → Except String String
  | .str s => Except.ok s
  | v => Except.error (pyTypeName v ++ " object has no attribute lower")

/-- Association-list lookup, modelling Python `dict.get` (`none` = absent). -/
def alookup {α : Type} (d : List (String × α)) (k : String) : Option α :=
  (d.find? (fun p => p.1 == k)).map Prod.snd

/-- The `self.field_patterns` catalogue: field → category → patterns. -/
def field_patterns : List (String × List (String × List (List Tok))) :=
  [ ("host_species",
     [ ("human", [lits "human", lits "patient" ++ [Tok.opt 's'],
        lits "participant" ++ [Tok.opt 's'], lits "subject" ++ [Tok.opt 's'],
        lits "volunteer" ++ [Tok.opt 's']]),
       ("mouse", [lits "mouse", lits "mice", lits "murine", lits "c57bl", lits "balb/c"]),
       ("rat", [lits "rat", lits "rats", lits "rattus"]),
       ("environmental", [lits "environmenta" ++ [Tok.opt 'l'], lits "environment",
        lits "indoor", lits "outdoor", lits "built environment", lits "natural environment"]),
       ("mixed", [lits "mixed", lits "combination", lits "both human and"]) ]),
    ("body_site",
     [ ("gut", [lits "gut", lits "intestine", lits "intestinal", lits "stool",
        lits "feces", lits "fecal", lits "colon"]),
       ("oral", [lits "oral", lits "mouth", lits "saliva", lits "dental",
        lits "tooth", lits "teeth", lits "tongue"]),
       ("skin", [lits "skin", lits "cutaneous", lits "dermal", lits "epidermal"]),
       ("vaginal", [lits "vaginal", lits "vagina", lits "cervical", lits "cervix"]),
       ("lung", [lits "lung", lits "respiratory", lits "airway", lits "bronchial"]),
       ("indoor", [lits "indoor", lits "building", lits "room", lits "office",
        lits "home", lits "restroom", lits "bathroom", lits "hospital", lits "school"]),
       ("outdoor", [lits "outdoor", lits "soil", lits "air", lits "water", lits "surface"]) ]),
    ("condition",
     [ ("disease", [lits "ibd", lits "crohn", lits "ulcerative colitis", lits "obesity",
        lits "diabetes", lits "cancer", lits "tumor"]),
       ("treatment", [lits "antibiotic", lits "treatment", lits "intervention", lits "therapy"]),
       ("comparative", [lits "men vs women", lits "healthy vs", lits "before vs after",
        lits "control vs", lits "comparison"]),
       ("environmental", [lits "seasonal", lits "temporal", lits "spatial",
        lits "geographic", lits "climatic"]) ]),
    ("sequencing_type",
     [ ("16s", [lits "16s", lits "16s rrna", lits "16s ribosomal", lits "v4",
        lits "v3-v4", lits "amplicon"]),
       ("metagenomics", [lits "metagenomic", lits "metagenomics", lits "shotgun",
        lits "whole genome", lits "wgs"]),
       ("metatranscriptomics", [lits "metatranscriptomic", lits "metatranscriptomics",
        lits "rna-seq", lits "transcriptome"]),
       ("other", [lits "sequencing", lits "next-generation", lits "ngs",
        lits "illumina", lits "pacbio"]) ]),
    ("taxa_level",
     [ ("phylum", [lits "phylum", lits "phyla", lits "proteobacteria",
        lits "actinobacteria", lits "bacteroidetes", lits "firmicutes"]),
       ("genus", [lits "genus", lits "genera", lits "bacteroides", lits "prevotella",
        lits "lactobacillus", lits "bifidobacterium"]),
       ("species", [lits "species", lits "e. coli", lits "b. fragilis",
        lits "l. acidophilus", lits "b. longum"]),
       ("family", [lits "family", lits "families", lits "enterobacteriaceae",
        lits "lactobacillaceae", lits "bifidobacteriaceae"]) ]),
    ("sample_size",
     [ ("numeric", [lits "n" ++ [Tok.wstar] ++ lits "=" ++ [Tok.wstar, Tok.dplus],
        Tok.dplus :: Tok.wstar :: lits "participant" ++ [Tok.opt 's'],
        Tok.dplus :: Tok.wstar :: lits "sample" ++ [Tok.opt 's'],
        Tok.dplus :: Tok.wstar :: lits "subject" ++ [Tok.opt 's']]),
       ("descriptive", [lits "multiple", lits "several", lits "various",
        lits "different", lits "longitudinal", lits "time point" ++ [Tok.opt 's']]) ]) ]

/-- Best pattern match found so far (`best_match` in the source). -/
structure PatMatch where
  confidence : ℚ
  matched : List (List Tok)

/-- Patterns of one category that match the (lowered) source text. -/
def categoryMatchList (pats : List (List Tok)) (textLower : String) : List (List Tok) :=
  pats.filter (fun p => reSearch p textLower)

/-- Confidence contributed by one category: the high band when the candidate
value itself matches a matched pattern, the low band otherwise, zero when the
category does not match the text at all. -/
def categoryConfidence (pats : List (List Tok)) (contentLower textLower : String) : ℚ :=
  let cm := categoryMatchList pats textLower
  if cm.isEmpty then 0
  else if cm.any (fun p => reSearch p contentLower) then
    min 1 ((cm.length : ℚ) * (1/5) + 3/5)
  else min 1 ((cm.length : ℚ) * (1/10) + 3/10)

/-- One iteration of the category loop of `_check_pattern_match`. -/
def cpmStep (contentLower textLower : String) (best : PatMatch)
    (cat : String × List (List Tok)) : PatMatch :=
  let cm := categoryMatchList cat.2 textLower
  if cm.isEmpty then best
  else
    let conf :=
      if cm.any (fun p => reSearch p contentLower) then
        min 1 ((cm.length : ℚ) * (1/5) + 3/5)
      else min 1 ((cm.length : ℚ) * (1/10) + 3/10)
    if best.confidence < conf then { confidence := conf, matched := cm } else best

/-- `EnhancedFieldValidator._check_pattern_match`. -/
def check_pattern_match (field_name content_value text : String) : PatMatch :=
  match alookup field_patterns field_name with
  | none => { confidence := 0, matched := [] }
  | some cats =>
    cats.foldl (cpmStep (pyLower content_value) (pyLower text))
      { confidence := 0, matched := [] }

/-- The `content_keys` table of `_get_field_content`. -/
def content_keys : List (String × String) :=
  [ ("host_species", "primary"), ("body_site", "site"), ("condition", "description"),
    ("sequencing_type", "method"), ("taxa_level", "level"), ("sample_size", "size") ]

/-- `EnhancedFieldValidator._get_field_content`: `extracted_data.get(key, "")`;
calling `.get` on a non-dict raises, which the caller catches. -/
def getFieldContent (field_name : String) (extracted_data : Value) : Except String Value :=
  let key := (alookup content_keys field_name).getD "value"
  match extracted_data with
  | Value.dictV d => Except.ok ((alookup d key).getD (Value.str ""))
  | v => Except.error (pyTypeName v ++ " object has no attribute get")

/-- Per-field validation outcome (`FieldValidationResult` dataclass). -/
structure FieldValidationResult where
  is_valid : Bool
  confidence : ℚ
  status : String
  extracted_value : String
  reason_if_missing : String
  suggestions_for_curation : String

/-- Fixed per-field hint table of `_generate_suggestions`. -/
def suggestions_table : List (String × String) :=
  [ ("host_species", "Look for explicit mentions of study organisms in methods, abstract, and study population descriptions"),
    ("body_site", "Check sample collection methods, study location descriptions, and abstract for sample source information"),
    ("condition", "Review study objectives, hypothesis, and experimental design for disease/condition details"),
    ("sequencing_type", "Examine methods section for molecular techniques, sequencing protocols, and platform information"),
    ("taxa_level", "Check results section for microbial community descriptions, diversity analysis, and taxonomic classifications"),
    ("sample_size", "Look for numbers in methods section, study design descriptions, and sample collection details") ]

/-- `EnhancedFieldValidator._generate_suggestions`. -/
def generate_suggestions (field_name status _content_value _text : String) : String :=
  if status = "PRESENT" then "Field is ready for curation"
  else (alookup suggestions_table field_name).getD "Review paper for additional information"

/-- `EnhancedFieldValidator._get_default_suggestions`. -/
def get_default_suggestions (field_name : String) : String :=
  generate_suggestions field_name "ABSENT" "" ""

/-- `EnhancedFieldValidator._create_absent_result`. -/
def create_absent_result (field_name reason : String) : FieldValidationResult where
  is_valid := false
  confidence := 0
  status := "ABSENT"
  extracted_value := "Unknown"
  reason_if_missing := reason
  suggestions_for_curation := get_default_suggestions field_name

/-- `EnhancedFieldValidator._get_reason_if_missing`. -/
def get_reason_if_missing (field_name status content_value : String) : String :=
  if status = "PRESENT" then "Field is complete"
  else if status = "PARTIALLY_PRESENT" then "Partial information found: " ++ content_value
  else "No clear information found for " ++ field_name

/-- Body of `validate_field` inside the `try` block: faults surface as
`Except.error` carrying the exception text. -/
def validate_field_body (field_name text : String) (extracted_data : Value) :
    Except String FieldValidationResult :=
  match getFieldContent field_name extracted_data with
  | Except.error e => Except.error e
  | Except.ok content_value =>
    if isFalsy content_value then
      Except.ok (create_absent_result field_name "No content extracted")
    else
      match valAsStr content_value with
      | Except.error e => Except.error e
      | Except.ok content_str =>
        if pyLower content_str = "unknown" ∨ pyLower content_str = "not specified"
            ∨ pyLower content_str = "" then
          Except.ok (create_absent_result field_name "No content extracted")
        else
          let pattern_match := check_pattern_match field_name content_str text
          if 4/5 ≤ pattern_match.confidence then
            Except.ok
              { is_valid := true
                confidence := min 1 (pattern_match.confidence + 1/10)
                status := "PRESENT"
                extracted_value := content_str
                reason_if_missing := get_reason_if_missing field_name "PRESENT" content_str
                suggestions_for_curation := generate_suggestions field_name "PRESENT" content_str text }
          else if 2/5 ≤ pattern_match.confidence then
            Except.ok
              { is_valid := false
                confidence := pattern_match.confidence
                status := "PARTIALLY_PRESENT"
                extracted_value := content_str
                reason_if_missing := get_reason_if_missing field_name "PARTIALLY_PRESENT" content_str
                suggestions_for_curation := generate_suggestions field_name "PARTIALLY_PRESENT" content_str text }
          else
            Except.ok
              { is_valid := false
                confidence := 0
                status := "ABSENT"
                extracted_value := content_str
                reason_if_missing := get_reason_if_missing field_name "ABSENT" content_str
                suggestions_for_curation := generate_suggestions field_name "ABSENT" content_str text }

/-- `EnhancedFieldValidator.validate_field`: the `try`/`except` wrapper, which
converts any internal fault into an ABSENT result carrying the message. -/
def validate_field (field_name text : String) (extracted_data : Value) :
    FieldValidationResult :=
  match validate_field_body field_name text extracted_data with
  | Except.ok r => r
  | Except.error e => create_absent_result field_name ("Validation error: " ++ e)

/-! ## ExtractionEnhancer: `FieldExtractionEnhancer.enhance_extraction` -/

/-- The six canonical curation fields, in loop order. -/
def canonical_fields : List String :=
  ["host_species", "body_site", "condition", "sequencing_type", "taxa_level", "sample_size"]

/-- The inline conditional key expression of `enhance_extraction`
(`"primary" if field_name == "host_species" else ...`, defaulting to `"size"`). -/
def contentKeyEnh (field_name : String) : String :=
  if field_name = "host_species" then "primary"
  else if field_name = "body_site" then "site"
  else if field_name = "condition" then "description"
  else if field_name = "sequencing_type" then "method"
  else if field_name = "taxa_level" then "level"
  else "size"

/-- Python single-character `str.replace("_", " ")`. -/
def replaceUnderscores (s : String) : String :=
  String.mk (s.data.map (fun c => if c == '_' then ' ' else c))

/-- `FieldExtractionEnhancer._create_default_field_structure`. -/
def create_default_field_structure (field_name : String) : Value :=
  Value.dictV
    [ (contentKeyEnh field_name, Value.str "Unknown"),
      ("confidence", Value.floatV 0),
      ("status", Value.str "ABSENT"),
      ("reason_if_missing", Value.str "Field not found in analysis"),
      ("suggestions_for_curation",
        Value.str ("Review paper for " ++ replaceUnderscores field_name ++ " information")) ]

/-- `FieldExtractionEnhancer._generate_curation_summary`. -/
def generate_curation_summary (missing_fields : List String) : String :=
  if missing_fields.isEmpty then
    "All required fields are present. Paper is ready for curation."
  else if missing_fields.length = 1 then
    "Missing 1 field: " ++ missing_fields.headD "" ++ ". Review paper for this information."
  else if missing_fields.length ≤ 3 then
    "Missing " ++ toString missing_fields.length ++ " fields: " ++
      String.intercalate ", " missing_fields ++ ". Paper needs additional review."
  else
    "Missing " ++ toString missing_fields.length ++ " fields: " ++
      String.intercalate ", " missing_fields ++ ". Paper requires significant review before curation."

/-- Python dict assignment `d[k] = v`: replace in place when the key exists,
otherwise append (insertion order preserved). -/
def pyDictSet (d : List (String × Value)) (k : String) (v : Value) : List (String × Value) :=
  if d.any (fun p => p.1 == k) then d.map (fun p => if p.1 == k then (k, v) else p)
  else d ++ [(k, v)]

/-- Entry written for one canonical field: the validated structure when the
field was extracted, the default ABSENT structure otherwise. -/
def fieldEntryFor (field_name : String) (mv : Option Value) (full_text : String) : Value :=
  match mv with
  | some v =>
    let r := validate_field field_name full_text v
    Value.dictV
      [ (contentKeyEnh field_name, Value.str r.extracted_value),
        ("confidence", Value.floatV r.confidence),
        ("status", Value.str r.status),
        ("reason_if_missing", Value.str r.reason_if_missing),
        ("suggestions_for_curation", Value.str r.suggestions_for_curation) ]
  | none => create_default_field_structure field_name

/-- Test `data.get("status") != "PRESENT"` used to collect missing fields. -/
def statusNotPresent (v : Value) : Bool :=
  match v with
  | Value.dictV d =>
    match alookup d "status" with
    | some (Value.str s) => s != "PRESENT"
    | _ => true
  | _ => true

/-- `FieldExtractionEnhancer.enhance_extraction`. -/
def enhance_extraction (extracted_data : List (String × Value)) (full_text : String) :
    List (String × Value) :=
  let enhanced := canonical_fields.foldl
    (fun acc f => pyDictSet acc f (fieldEntryFor f (alookup extracted_data f) full_text)) []
  let missing := (enhanced.filter (fun p => statusNotPresent p.2)).map Prod.fst
  let e1 := pyDictSet enhanced "curation_ready" (Value.boolV (missing.length == 0))
  let e2 := pyDictSet e1 "missing_fields" (Value.listV (missing.map Value.str))
  pyDictSet e2 "curation_preparation_summary" (Value.str (generate_curation_summary missing))

/-! ## AnalysisCache: `CacheManager`

Each SQLite table has `pmid TEXT PRIMARY KEY`; a table is modelled as a list
of `(pmid, payload)` rows.  `INSERT OR REPLACE` deletes any row that conflicts
on the primary key and inserts the new row; `SELECT ... WHERE pmid = ?` with
`fetchone` returns the unique matching row, if any. -/

/-- Columns of `analysis_cache` besides the key. -/
structure AnalysisPayload where
  analysis_data : String
  metadata : String
  timestamp : String
  source : String
  confidence : ℚ
  curation_ready : Bool

/-- Columns of `metadata_cache` besides the key. -/
structure MetadataPayload where
  metadata : String
  timestamp : String
  source : String
deriving DecidableEq

/-- Columns of `fulltext_cache` besides the key. -/
structure FulltextPayload where
  fulltext : String
  timestamp : String
  source : String
deriving DecidableEq

/-- The three tables created by `CacheManager._init_database`. -/
structure AnalysisCacheDB where
  analysis_cache : List (String × AnalysisPayload)
  metadata_cache : List (String × MetadataPayload)
  fulltext_cache : List (String × FulltextPayload)

/-- Fresh empty database (`_init_database` on a new file). -/
def init_database : AnalysisCacheDB where
  analysis_cache := []
  metadata_cache := []
  fulltext_cache := []

/-- `INSERT OR REPLACE` on a `pmid` primary key: drop the conflicting row,
append the new one. -/
def upsertRow {α : Type} (t : List (String × α)) (k : String) (v : α) :
    List (String × α) :=
  (t.filter (fun p => p.1 != k)) ++ [(k, v)]

/-- Number of rows stored under a key. -/
def countKey {α : Type} (t : List (String × α)) (k : String) : Nat :=
  (t.filter (fun p => p.1 == k)).length

/-- `CacheManager.store_analysis_result`. -/
def store_analysis_result (db : AnalysisCacheDB) (pmid : String) (p : AnalysisPayload) :
    AnalysisCacheDB :=
  { db with analysis_cache := upsertRow db.analysis_cache pmid p }

/-- `CacheManager.get_analysis_result` (the selected row, `none` on a miss). -/
def get_analysis_result (db : AnalysisCacheDB) (pmid : String) : Option AnalysisPayload :=
  alookup db.analysis_cache pmid

/-- `CacheManager.store_metadata`. -/
def store_metadata (db : AnalysisCacheDB) (pmid : String) (p : MetadataPayload) :
    AnalysisCacheDB :=
  { db with metadata_cache := upsertRow db.metadata_cache pmid p }

/-- `CacheManager.get_metadata`. -/
def get_metadata (db : AnalysisCacheDB) (pmid : String) : Option MetadataPayload :=
  alookup db.metadata_cache pmid

/-- `CacheManager.store_fulltext`. -/
def store_fulltext (db : AnalysisCacheDB) (pmid : String) (p : FulltextPayload) :
    AnalysisCacheDB :=
  { db with fulltext_cache := upsertRow db.fulltext_cache pmid p }

/-- `CacheManager.get_fulltext`. -/
def get_fulltext (db : AnalysisCacheDB) (pmid : String) : Option FulltextPayload :=
  alookup db.fulltext_cache pmid

/-- One store operation against the cache. -/
inductive CacheOp where
  | storeAnalysis (pmid : String) (p : AnalysisPayload)
  | storeMetadata (pmid : String) (p : MetadataPayload)
  | storeFulltext (pmid : String) (p : FulltextPayload)

/-- Apply one store operation. -/
def applyOp (db : AnalysisCacheDB) : CacheOp → AnalysisCacheDB
  | CacheOp.storeAnalysis k p => store_analysis_result db k p
  | CacheOp.storeMetadata k p => store_metadata db k p
  | CacheOp.storeFulltext k p => store_fulltext db k p

/-- Apply a sequence of store operations in order. -/
def applyOps (ops : List CacheOp) (db : AnalysisCacheDB) : AnalysisCacheDB :=
  ops.foldl applyOp db

/-- Left-biased choice on options (first argument wins when present). -/
def orElseO {α : Type} (a b : Option α) : Option α :=
  match a with
  | some x => some x
  | none => b

/-- The analysis payload written for key `k` by a single operation, if any. -/
def analysisWrite (k : String) : CacheOp → Option AnalysisPayload
  | CacheOp.storeAnalysis p q => if p == k then some q else none
  | _ => none

/-- The metadata payload written for key `k` by a single operation, if any. -/
def metadataWrite (k : String) : CacheOp → Option MetadataPayload
  | CacheOp.storeMetadata p q => if p == k then some q else none
  | _ => none

/-- The fulltext payload written for key `k` by a single operation, if any. -/
def fulltextWrite (k : String) : CacheOp → Option FulltextPayload
  | CacheOp.storeFulltext p q => if p == k then some q else none
  | _ => none

/-- Most recent analysis payload written for key `k` in an operation list. -/
def lastAnalysisWrite (k : String) (ops : List CacheOp) : Option AnalysisPayload :=
  ops.foldl (fun acc op => orElseO (analysisWrite k op) acc) none

/-- Most recent metadata payload written for key `k` in an operation list. -/
def lastMetadataWrite (k : String) (ops : List CacheOp) : Option MetadataPayload :=
  ops.foldl (fun acc op => orElseO (metadataWrite k op) acc) none

/-- Most recent fulltext payload written for key `k` in an operation list. -/
def lastFulltextWrite (k : String) (ops : List CacheOp) : Option FulltextPayload :=
  ops.foldl (fun acc op => orElseO (fulltextWrite k op) acc) none

/-- Effect of one raw line of the readiness section on the readiness value:
blank lines are skipped, otherwise the classification of the stripped,
upper-cased line replaces the current value when it fires. -/
def readinessAcc (acc : String) (raw_line : String) : String :=
  if pyStrip raw_line = "" then acc
  else (classifyReadiness (pyUpper (pyStrip raw_line))).getD acc

/-- Effect of one raw line of the confidence section on the confidence value:
blank lines are skipped, otherwise the first decimal number of the line (if
any) overwrites the current value. -/
def confidenceAcc (acc : ℚ) (raw_line : String) : ℚ :=
  if pyStrip raw_line = "" then acc
  else
    match findFirstNumber (pyStrip raw_line).data with
    | some v => v
    | none => acc

/-! ## Association-list lemmas -/

theorem alookup_cons {α : Type} (p : String × α) (d : List (String × α)) (k : String) :
    alookup (p :: d) k = if p.1 = k then some p.2 else alookup d k := by
  by_cases h : p.1 = k <;> simp [alookup, List.find?_cons, h]

theorem alookup_append {α : Type} (d1 d2 : List (String × α)) (k : String) :
    alookup (d1 ++ d2) k = orElseO (alookup d1 k) (alookup d2 k) := by
  induction d1 with
  | nil => simp [alookup, orElseO]
  | cons p d ih =>
    by_cases h : p.1 = k <;> simp [alookup_cons, h, ih, orElseO]

theorem alookup_map_pairs (fs : List String) (g : String → Value) (f : String)
    (hf : f ∈ fs) :
    alookup (fs.map (fun x => (x, g x))) f = some (g f) := by
  induction fs with
  | nil => cases hf
  | cons f0 fs ih =>
    rcases List.mem_cons.mp hf with h | h
    · subst h; simp [alookup_cons]
    · by_cases h0 : f0 = f
      · subst h0; simp [alookup_cons]
      · simp [alookup_cons, h0, ih h]

theorem pyDictSet_fresh (d : List (String × Value)) (k : String) (v : Value)
    (h : k ∉ d.map Prod.fst) : pyDictSet d k v = d ++ [(k, v)] := by
  have hany : d.any (fun p => p.1 == k) = false := by
    rw [Bool.eq_false_iff]
    intro hzz
    rcases List.any_eq_true.mp hzz with ⟨p, hp, hbeq⟩
    exact h ((eq_of_beq hbeq) ▸ List.mem_map_of_mem Prod.fst hp)
  simp [pyDictSet, hany]

theorem enhance_fold_eq (fs : List String) :
    ∀ (acc : List (String × Value)) (g : String → Value), fs.Nodup →
      (∀ f ∈ fs, f ∉ acc.map Prod.fst) →
      fs.foldl (fun acc f => pyDictSet acc f (g f)) acc
        = acc ++ fs.map (fun f => (f, g f)) := by
  induction fs with
  | nil => intro acc g _ _; simp
  | cons f fs ih =>
    intro acc g hnd hfresh
    rw [List.foldl_cons, pyDictSet_fresh acc f (g f) (hfresh f (List.mem_cons_self f fs))]
    rw [ih (acc ++ [(f, g f)]) g (List.nodup_cons.mp hnd).2 ?_]
    · simp
    · intro f' hf'
      simp only [List.map_append, List.mem_append, List.map_cons, List.map_nil,
        List.mem_singleton, not_or]
      exact ⟨hfresh f' (List.mem_cons_of_mem f hf'),
        fun hEq => (List.nodup_cons.mp hnd).1 (hEq ▸ hf')⟩

theorem enhance_inner_fold (d : List (String × Value)) (t : String) :
    canonical_fields.foldl
      (fun acc f => pyDictSet acc f (fieldEntryFor f (alookup d f) t)) []
      = canonical_fields.map (fun f => (f, fieldEntryFor f (alookup d f) t)) := by
  have := enhance_fold_eq canonical_fields [] (fun f => fieldEntryFor f (alookup d f) t)
    (by decide) (by intro f _; simp)
  simpa using this

theorem enhance_inner_keys (d : List (String × Value)) (t : String) :
    (canonical_fields.map
      (fun f => (f, fieldEntryFor f (alookup d f) t))).map Prod.fst = canonical_fields := by
  rw [List.map_map,
    show (Prod.fst ∘ fun f => (f, fieldEntryFor f (alookup d f) t)) = id from rfl,
    List.map_id]

/-- The entry that `enhance_extraction` stores under a canonical field name is
exactly the validated (or default) structure for that field, computed from
that field's candidate alone. -/
theorem alookup_enhance_canonical (d : List (String × Value)) (t g : String)
    (hg : g ∈ canonical_fields) :
    alookup (enhance_extraction d t) g = some (fieldEntryFor g (alookup d g) t) := by
  simp only [enhance_extraction]
  rw [enhance_inner_fold d t]
  rw [pyDictSet_fresh _ "curation_ready" _ (by rw [enhance_inner_keys]; decide)]
  rw [pyDictSet_fresh _ "missing_fields" _
    (by simp only [List.map_append, enhance_inner_keys, List.map_cons, List.map_nil]; decide)]
  rw [pyDictSet_fresh _ "curation_preparation_summary" _
    (by simp only [List.map_append, enhance_inner_keys, List.map_cons, List.map_nil]; decide)]
  simp [alookup_append, alookup_map_pairs _ _ _ hg, orElseO]

/-! ## Parser fold lemmas -/

theorem processContent_readiness (line : String) (r : CurationAnalysis) :
    processContent "readiness" line r
      = { r with readiness := (classifyReadiness (pyUpper line)).getD r.readiness } := by
  cases h : classifyReadiness (pyUpper line) <;> simp [processContent, h]

theorem processContent_confidence (line : String) (r : CurationAnalysis) :
    processContent "confidence" line r
      = { r with confidence := (findFirstNumber line.data).getD r.confidence } := by
  cases h : findFirstNumber line.data <;> simp [processContent, h]

theorem processContent_empty_section (line : String) (r : CurationAnalysis) :
    processContent "" line r = r := by
  simp [processContent]

theorem readiness_section_fold (ls : List String) :
    ∀ r : CurationAnalysis, (∀ l ∈ ls, sectionOf (pyStrip l) = none) →
      ls.foldl processLine ("readiness", r)
        = ("readiness", { r with readiness := ls.foldl readinessAcc r.readiness }) := by
  induction ls with
  | nil => intro r _; simp
  | cons l ls ih =>
    intro r hmk
    rw [List.foldl_cons, List.foldl_cons]
    by_cases hb : pyStrip l = ""
    · rw [show processLine ("readiness", r) l = ("readiness", r) by simp [processLine, hb]]
      rw [show readinessAcc r.readiness l = r.readiness by simp [readinessAcc, hb]]
      exact ih r (fun l' hl' => hmk l' (List.mem_cons_of_mem _ hl'))
    · have hm := hmk l (List.mem_cons_self _ _)
      rw [show processLine ("readiness", r) l
            = ("readiness", processContent "readiness" (pyStrip l) r) by
          simp [processLine, hb, hm]]
      rw [processContent_readiness]
      rw [show readinessAcc r.readiness l
            = (classifyReadiness (pyUpper (pyStrip l))).getD r.readiness by
          simp [readinessAcc, hb]]
      exact ih _ (fun l' hl' => hmk l' (List.mem_cons_of_mem _ hl'))

theorem confidence_section_fold (ls : List String) :
    ∀ r : CurationAnalysis, (∀ l ∈ ls, sectionOf (pyStrip l) = none) →
      ls.foldl processLine ("confidence", r)
        = ("confidence", { r with confidence := ls.foldl confidenceAcc r.confidence }) := by
  induction ls with
  | nil => intro r _; simp
  | cons l ls ih =>
    intro r hmk
    rw [List.foldl_cons, List.foldl_cons]
    by_cases hb : pyStrip l = ""
    · rw [show processLine ("confidence", r) l = ("confidence", r) by simp [processLine, hb]]
      rw [show confidenceAcc r.confidence l = r.confidence by simp [confidenceAcc, hb]]
      exact ih r (fun l' hl' => hmk l' (List.mem_cons_of_mem _ hl'))
    · have hm := hmk l (List.mem_cons_self _ _)
      rw [show processLine ("confidence", r) l
            = ("confidence", processContent "confidence" (pyStrip l) r) by
          simp [processLine, hb, hm]]
      rw [processContent_confidence]
      rw [show confidenceAcc r.confidence l
            = (findFirstNumber (pyStrip l).data).getD r.confidence by
          cases hn : findFirstNumber (pyStrip l).data <;> simp [confidenceAcc, hb, hn]]
      exact ih _ (fun l' hl' => hmk l' (List.mem_cons_of_mem _ hl'))

theorem no_section_fold (ls : List String) :
    ∀ r : CurationAnalysis, (∀ l ∈ ls, sectionOf (pyStrip l) = none) →
      ls.foldl processLine ("", r) = ("", r) := by
  induction ls with
  | nil => intro r _; rfl
  | cons l ls ih =>
    intro r hmk
    rw [List.foldl_cons]
    by_cases hb : pyStrip l = ""
    · rw [show processLine ("", r) l = ("", r) by simp [processLine, hb]]
      exact ih r (fun l' hl' => hmk l' (List.mem_cons_of_mem _ hl'))
    · have hm := hmk l (List.mem_cons_self _ _)
      rw [show processLine ("", r) l = ("", r) by
        simp [processLine, hb, hm, processContent_empty_section]]
      exact ih r (fun l' hl' => hmk l' (List.mem_cons_of_mem _ hl'))

theorem finalize_readiness (r : CurationAnalysis) :
    (finalizeAnalysis r).readiness = r.readiness := rfl

theorem finalize_confidence (r : CurationAnalysis) :
    (finalizeAnalysis r).confidence = r.confidence := rfl

/-! ## Cache lemmas -/

theorem orElseO_none_right {α : Type} (a : Option α) : orElseO a none = a := by
  cases a <;> rfl

theorem orElseO_assoc {α : Type} (a b c : Option α) :
    orElseO (orElseO a b) c = orElseO a (orElseO b c) := by
  cases a <;> cases b <;> rfl

theorem alookup_filter_self {α : Type} (t : List (String × α)) (k : String) :
    alookup (t.filter (fun p => p.1 != k)) k = none := by
  induction t with
  | nil => rfl
  | cons p t ih =>
    by_cases h : p.1 = k
    · simp [List.filter_cons, h, ih]
    · simp [List.filter_cons, h, alookup_cons, ih]

theorem alookup_filter_other {α : Type} (t : List (String × α)) (k' k : String)
    (h : k' ≠ k) :
    alookup (t.filter (fun p => p.1 != k')) k = alookup t k := by
  induction t with
  | nil => rfl
  | cons p t ih =>
    by_cases hp : p.1 = k'
    · have hk : p.1 ≠ k := hp ▸ h
      simp [List.filter_cons, hp, alookup_cons, hk, ih, h]
    · simp [List.filter_cons, hp, alookup_cons, ih]

theorem alookup_nil {α : Type} (k : String) : alookup ([] : List (String × α)) k = none := rfl

theorem alookup_upsert {α : Type} (t : List (String × α)) (k' k : String) (v : α) :
    alookup (upsertRow t k' v) k = if k' = k then some v else alookup t k := by
  by_cases h : k' = k
  · subst h
    simp [upsertRow, alookup_append, alookup_filter_self, orElseO, alookup_cons]
  · simp [upsertRow, alookup_append, alookup_filter_other t k' k h, h, alookup_cons,
      alookup_nil, orElseO_none_right]

theorem countKey_filter_self {α : Type} (t : List (String × α)) (k : String) :
    countKey (t.filter (fun p => p.1 != k)) k = 0 := by
  simp [countKey, List.filter_filter, bne, Bool.and_not_self]

theorem countKey_filter_other {α : Type} (t : List (String × α)) (k' k : String)
    (h : k' ≠ k) :
    countKey (t.filter (fun p => p.1 != k')) k = countKey t k := by
  unfold countKey
  rw [List.filter_filter]
  congr 1
  apply List.filter_congr
  intro a _
  by_cases ha : a.1 = k
  · have hne : k ≠ k' := fun hkk => h hkk.symm
    simp [ha, bne_iff_ne, hne]
  · have hfalse : (a.1 == k) = false := beq_eq_false_iff_ne.mpr ha
    simp [hfalse]

theorem countKey_append {α : Type} (a b : List (String × α)) (k : String) :
    countKey (a ++ b) k = countKey a k + countKey b k := by
  simp [countKey, List.filter_append]

theorem countKey_upsert {α : Type} (t : List (String × α)) (k' k : String) (v : α) :
    countKey (upsertRow t k' v) k = if k' = k then 1 else countKey t k := by
  by_cases h : k' = k
  · subst h
    simp [upsertRow, countKey_append, countKey_filter_self, countKey, List.filter_cons]
  · rw [upsertRow, countKey_append, countKey_filter_other t k' k h]
    simp [countKey, List.filter_cons, h]

theorem foldl_orElseO {α β : Type} (f : β → Option α) (ops : List β) :
    ∀ a : Option α,
      ops.foldl (fun acc op => orElseO (f op) acc) a
        = orElseO (ops.foldl (fun acc op => orElseO (f op) acc) none) a := by
  induction ops with
  | nil => intro a; rfl
  | cons op ops ih =>
    intro a
    rw [List.foldl_cons, List.foldl_cons, ih (orElseO (f op) a), ih (orElseO (f op) none),
      orElseO_none_right, orElseO_assoc]

theorem applyOps_get_analysis (ops : List CacheOp) :
    ∀ (db : AnalysisCacheDB) (k : String),
      get_analysis_result (applyOps ops db) k
        = orElseO (lastAnalysisWrite k ops) (get_analysis_result db k) := by
  induction ops with
  | nil => intro db k; rfl
  | cons op ops ih =>
    intro db k
    have hstep : get_analysis_result (applyOp db op) k
        = orElseO (analysisWrite k op) (get_analysis_result db k) := by
      cases op with
      | storeAnalysis k' p =>
        by_cases h : k' = k
        · subst h
          simp [applyOp, store_analysis_result, get_analysis_result, alookup_upsert,
            analysisWrite, orElseO]
        · simp [applyOp, store_analysis_result, get_analysis_result, alookup_upsert, h,
            analysisWrite, orElseO]
      | storeMetadata k' p => rfl
      | storeFulltext k' p => rfl
    have hlast : lastAnalysisWrite k (op :: ops)
        = orElseO (lastAnalysisWrite k ops) (analysisWrite k op) := by
      unfold lastAnalysisWrite
      rw [List.foldl_cons, foldl_orElseO, orElseO_none_right]
    calc get_analysis_result (applyOps (op :: ops) db) k
        = get_analysis_result (applyOps ops (applyOp db op)) k := rfl
      _ = orElseO (lastAnalysisWrite k ops) (get_analysis_result (applyOp db op) k) :=
          ih (applyOp db op) k
      _ = orElseO (lastAnalysisWrite k ops)
            (orElseO (analysisWrite k op) (get_analysis_result db k)) := by rw [hstep]
      _ = orElseO (lastAnalysisWrite k (op :: ops)) (get_analysis_result db k) := by
          rw [hlast, orElseO_assoc]

theorem applyOps_get_metadata (ops : List CacheOp) :
    ∀ (db : AnalysisCacheDB) (k : String),
      get_metadata (applyOps ops db) k
        = orElseO (lastMetadataWrite k ops) (get_metadata db k) := by
  induction ops with
  | nil => intro db k; rfl
  | cons op ops ih =>
    intro db k
    have hstep : get_metadata (applyOp db op) k
        = orElseO (metadataWrite k op) (get_metadata db k) := by
      cases op with
      | storeMetadata k' p =>
        by_cases h : k' = k
        · subst h
          simp [applyOp, store_metadata, get_metadata, alookup_upsert,
            metadataWrite, orElseO]
        · simp [applyOp, store_metadata, get_metadata, alookup_upsert, h,
            metadataWrite, orElseO]
      | storeAnalysis k' p => rfl
      | storeFulltext k' p => rfl
    have hlast : lastMetadataWrite k (op :: ops)
        = orElseO (lastMetadataWrite k ops) (metadataWrite k op) := by
      unfold lastMetadataWrite
      rw [List.foldl_cons, foldl_orElseO, orElseO_none_right]
    calc get_metadata (applyOps (op :: ops) db) k
        = get_metadata (applyOps ops (applyOp db op)) k := rfl
      _ = orElseO (lastMetadataWrite k ops) (get_metadata (applyOp db op) k) :=
          ih (applyOp db op) k
      _ = orElseO (lastMetadataWrite k ops)
            (orElseO (metadataWrite k op) (get_metadata db k)) := by rw [hstep]
      _ = orElseO (lastMetadataWrite k (op :: ops)) (get_metadata db k) := by
          rw [hlast, orElseO_assoc]

theorem applyOps_get_fulltext (ops : List CacheOp) :
    ∀ (db : AnalysisCacheDB) (k : String),
      get_fulltext (applyOps ops db) k
        = orElseO (lastFulltextWrite k ops) (get_fulltext db k) := by
  induction ops with
  | nil => intro db k; rfl
  | cons op ops ih =>
    intro db k
    have hstep : get_fulltext (applyOp db op) k
        = orElseO (fulltextWrite k op) (get_fulltext db k) := by
      cases op with
      | storeFulltext k' p =>
        by_cases h : k' = k
        · subst h
          simp [applyOp, store_fulltext, get_fulltext, alookup_upsert,
            fulltextWrite, orElseO]
        · simp [applyOp, store_fulltext, get_fulltext, alookup_upsert, h,
            fulltextWrite, orElseO]
      | storeAnalysis k' p => rfl
      | storeMetadata k' p => rfl
    have hlast : lastFulltextWrite k (op :: ops)
        = orElseO (lastFulltextWrite k ops) (fulltextWrite k op) := by
      unfold lastFulltextWrite
      rw [List.foldl_cons, foldl_orElseO, orElseO_none_right]
    calc get_fulltext (applyOps (op :: ops) db) k
        = get_fulltext (applyOps ops (applyOp db op)) k := rfl
      _ = orElseO (lastFulltextWrite k ops) (get_fulltext (applyOp db op) k) :=
          ih (applyOp db op) k
      _ = orElseO (lastFulltextWrite k ops)
            (orElseO (fulltextWrite k op) (get_fulltext db k)) := by rw [hstep]
      _ = orElseO (lastFulltextWrite k (op :: ops)) (get_fulltext db k) := by
          rw [hlast, orElseO_assoc]

theorem applyOps_count_all (ops : List CacheOp) :
    ∀ (db : AnalysisCacheDB) (k : String),
      countKey db.analysis_cache k ≤ 1 → countKey db.metadata_cache k ≤ 1 →
      countKey db.fulltext_cache k ≤ 1 →
      countKey (applyOps ops db).analysis_cache k ≤ 1
        ∧ countKey (applyOps ops db).metadata_cache k ≤ 1
        ∧ countKey (applyOps ops db).fulltext_cache k ≤ 1 := by
  induction ops with
  | nil => intro db k h1 h2 h3; exact ⟨h1, h2, h3⟩
  | cons op ops ih =>
    intro db k h1 h2 h3
    apply ih (applyOp db op) k <;>
      cases op <;>
      simp only [applyOp, store_analysis_result, store_metadata, store_fulltext,
        countKey_upsert] <;>
      first
        | (split
           · omega
           · assumption)
        | assumption

/-! ## Validator lemmas -/

theorem categoryConfidence_nonneg (pats : List (List Tok)) (cl tl : String) :
    0 ≤ categoryConfidence pats cl tl := by
  simp only [categoryConfidence]
  by_cases h1 : (categoryMatchList pats tl).isEmpty = true
  · rw [if_pos h1]
  · rw [if_neg h1]
    by_cases h2 : ((categoryMatchList pats tl).any fun p => reSearch p cl) = true
    · rw [if_pos h2]
      exact le_min (by norm_num) (by positivity)
    · rw [if_neg h2]
      exact le_min (by norm_num) (by positivity)

theorem cpmStep_confidence (cl tl : String) (best : PatMatch)
    (cat : String × List (List Tok)) (h : 0 ≤ best.confidence) :
    (cpmStep cl tl best cat).confidence
      = max best.confidence (categoryConfidence cat.2 cl tl) := by
  simp only [cpmStep, categoryConfidence]
  by_cases h1 : (categoryMatchList cat.2 tl).isEmpty = true
  · rw [if_pos h1, if_pos h1, max_eq_left h]
  · rw [if_neg h1, if_neg h1]
    by_cases h2 : ((categoryMatchList cat.2 tl).any fun p => reSearch p cl) = true
    · rw [if_pos h2]
      by_cases h3 : best.confidence
          < min 1 (((categoryMatchList cat.2 tl).length : ℚ) * (1/5) + 3/5)
      · rw [if_pos h3, max_eq_right (le_of_lt h3)]
      · rw [if_neg h3, max_eq_left (le_of_not_lt h3)]
    · rw [if_neg h2]
      by_cases h3 : best.confidence
          < min 1 (((categoryMatchList cat.2 tl).length : ℚ) * (1/10) + 3/10)
      · rw [if_pos h3, max_eq_right (le_of_lt h3)]
      · rw [if_neg h3, max_eq_left (le_of_not_lt h3)]

theorem cpm_fold_confidence (cl tl : String) (cats : List (String × List (List Tok))) :
    ∀ best : PatMatch, 0 ≤ best.confidence →
      (cats.foldl (cpmStep cl tl) best).confidence
        = cats.foldl (fun q c => max q (categoryConfidence c.2 cl tl)) best.confidence := by
  induction cats with
  | nil => intro best _; rfl
  | cons c cats ih =>
    intro best h
    rw [List.foldl_cons, List.foldl_cons]
    have hstep := cpmStep_confidence cl tl best c h
    have hnn : 0 ≤ (cpmStep cl tl best c).confidence := by
      rw [hstep]; exact le_max_of_le_left h
    rw [ih (cpmStep cl tl best c) hnn, hstep]

theorem foldl_max_le {β : Type} (g : β → ℚ) (l : List β) :
    ∀ a b : ℚ, a ≤ b → (∀ x ∈ l, g x ≤ b) →
      l.foldl (fun q c => max q (g c)) a ≤ b := by
  induction l with
  | nil => intro a b ha _; exact ha
  | cons c l ih =>
    intro a b ha hl
    rw [List.foldl_cons]
    exact ih _ b (max_le ha (hl c (List.mem_cons_self _ _)))
      (fun x hx => hl x (List.mem_cons_of_mem _ hx))

theorem le_foldl_max {β : Type} (g : β → ℚ) (l : List β) :
    ∀ a : ℚ, a ≤ l.foldl (fun q c => max q (g c)) a := by
  induction l with
  | nil => intro a; exact le_refl a
  | cons c l ih =>
    intro a
    rw [List.foldl_cons]
    exact le_trans (le_max_left _ _) (ih _)

theorem mem_le_foldl_max {β : Type} (g : β → ℚ) (l : List β) :
    ∀ (a : ℚ) (x : β), x ∈ l → g x ≤ l.foldl (fun q c => max q (g c)) a := by
  induction l with
  | nil => intro a x hx; cases hx
  | cons c l ih =>
    intro a x hx
    rw [List.foldl_cons]
    rcases List.mem_cons.mp hx with h | h
    · subst h
      exact le_trans (le_max_right _ _) (le_foldl_max g l _)
    · exact ih _ x h

/-- When one category dominates all category scores, the best-match
confidence of `_check_pattern_match` is exactly that category's score. -/
theorem check_pattern_match_best (field_name content_value text : String)
    (cats : List (String × List (List Tok))) (catName : String) (pats : List (List Tok))
    (hpat : alookup field_patterns field_name = some cats)
    (hcat : (catName, pats) ∈ cats)
    (hbest : ∀ c ∈ cats, categoryConfidence c.2 (pyLower content_value) (pyLower text)
        ≤ categoryConfidence pats (pyLower content_value) (pyLower text)) :
    (check_pattern_match field_name content_value text).confidence
      = categoryConfidence pats (pyLower content_value) (pyLower text) := by
  simp only [check_pattern_match, hpat]
  rw [cpm_fold_confidence (pyLower content_value) (pyLower text) cats
    { confidence := 0, matched := [] } (le_refl 0)]
  apply le_antisymm
  · exact foldl_max_le _ cats _ _ (categoryConfidence_nonneg pats _ _) hbest
  · exact mem_le_foldl_max _ cats _ (catName, pats) hcat

theorem categoryConfidence_high (pats : List (List Tok)) (cl tl : String)
    (hne : (categoryMatchList pats tl).isEmpty = false)
    (hany : ((categoryMatchList pats tl).any fun p => reSearch p cl) = true) :
    categoryConfidence pats cl tl
      = min 1 (((categoryMatchList pats tl).length : ℚ) * (1/5) + 3/5) := by
  simp only [categoryConfidence]
  rw [if_neg (by simp [hne]), if_pos hany]

/-- Evaluation of `validate_field` on the PRESENT path: a string candidate
that is non-empty, not a sentinel, and whose pattern-match score reaches the
0.8 threshold. -/
theorem validate_field_present_eval (field_name text : String) (d : Value)
    (content : String)
    (hget : getFieldContent field_name d = Except.ok (Value.str content))
    (hne : content ≠ "")
    (hs1 : pyLower content ≠ "unknown") (hs2 : pyLower content ≠ "not specified")
    (hs3 : pyLower content ≠ "")
    (hconf : 4/5 ≤ (check_pattern_match field_name content text).confidence) :
    validate_field field_name text d =
      { is_valid := true
        confidence := min 1 ((check_pattern_match field_name content text).confidence + 1/10)
        status := "PRESENT"
        extracted_value := content
        reason_if_missing := get_reason_if_missing field_name "PRESENT" content
        suggestions_for_curation :=
          generate_suggestions field_name "PRESENT" content text } := by
  have hfalsy : isFalsy (Value.str content) = false := by
    simp [isFalsy, hne]
  have hbody : validate_field_body field_name text d =
      Except.ok
        { is_valid := true
          confidence := min 1 ((check_pattern_match field_name content text).confidence + 1/10)
          status := "PRESENT"
          extracted_value := content
          reason_if_missing := get_reason_if_missing field_name "PRESENT" content
          suggestions_for_curation :=
            generate_suggestions field_name "PRESENT" content text } := by
    simp only [validate_field_body, hget]
    rw [if_neg (by simp [hfalsy])]
    simp only [valAsStr]
    rw [if_neg (by simp [hs1, hs2, hs3])]
    rw [if_pos hconf]
  simp [validate_field, hbody]

/-- Any successful result of the validation body with status ABSENT carries
confidence 0. -/
theorem validate_body_ok_absent (field_name text : String) (d : Value)
    (r : FieldValidationResult)
    (h : validate_field_body field_name text d = Except.ok r)
    (habs : r.status = "ABSENT") : r.confidence = 0 := by
  simp only [validate_field_body] at h
  cases hg : getFieldContent field_name d with
  | error e =>
    simp only [hg] at h
    exact Except.noConfusion h
  | ok v =>
    simp only [hg] at h
    by_cases hf : isFalsy v = true
    · rw [if_pos hf] at h
      injection h with h'
      subst h'
      rfl
    · rw [if_neg hf] at h
      cases hv : valAsStr v with
      | error e =>
        simp only [hv] at h
        exact Except.noConfusion h
      | ok s =>
        simp only [hv] at h
        by_cases hsent : (pyLower s = "unknown" ∨ pyLower s = "not specified"
            ∨ pyLower s = "")
        · rw [if_pos hsent] at h
          injection h with h'
          subst h'
          rfl
        · rw [if_neg hsent] at h
          by_cases hc1 : 4/5 ≤ (check_pattern_match field_name s text).confidence
          · rw [if_pos hc1] at h
            injection h with h'
            subst h'
            simp at habs
          · rw [if_neg hc1] at h
            by_cases hc2 : 2/5 ≤ (check_pattern_match field_name s text).confidence
            · rw [if_pos hc2] at h
              injection h with h'
              subst h'
              simp at habs
            · rw [if_neg hc2] at h
              injection h with h'
              subst h'
              rfl

/-- The `except` clause of `validate_field`. -/
theorem validate_field_error (field_name text : String) (d : Value) (e : String)
    (h : validate_field_body field_name text d = Except.error e) :
    validate_field field_name text d
      = create_absent_result field_name ("Validation error: " ++ e) := by
  simp [validate_field, h]

/-- A category whose score is 0 is dominated by any category score. -/
theorem categoryConfidence_zero_le (pats qats : List (List Tok)) (cl tl : String)
    (h : categoryConfidence pats cl tl = 0) :
    categoryConfidence pats cl tl ≤ categoryConfidence qats cl tl :=
  h ▸ categoryConfidence_nonneg qats cl tl

/-! ## Claim theorems -/

/-- C1: the claim says a readiness-section line containing the literal phrase
"NOT READY FOR CURATION" yields `readiness = NOT_READY`.  The code tests
"READY FOR CURATION" first, and that phrase is a substring of
"NOT READY FOR CURATION", so the parser actually returns READY on exactly
that input: the code contradicts the claim (and the spec's own regression
test), a code bug. -/
theorem c1_not_ready_line_parsed_as_ready :
    (parse_enhanced_analysis
      "CURATION READINESS ASSESSMENT:\nNOT READY FOR CURATION").readiness = "READY" := by
  decide

/-- C2: the claim says the confidence read from the confidence-level section
is clamped into [0, 1] before being returned.  The code converts the first
number of the line verbatim and performs no clamping: on the input below it
returns 85.0, which is strictly greater than 1 — a code bug relative to the
spec's stated [0,1] invariant. -/
theorem c2_confidence_unclamped :
    (parse_enhanced_analysis "CONFIDENCE LEVEL:\n85").confidence = 85
      ∧ ¬((parse_enhanced_analysis "CONFIDENCE LEVEL:\n85").confidence ≤ 1) := by
  have h : (parse_enhanced_analysis "CONFIDENCE LEVEL:\n85").confidence
      = parseNumber ['8', '5'] [] := rfl
  have h85 : (parse_enhanced_analysis "CONFIDENCE LEVEL:\n85").confidence = (85 : ℚ) := by
    rw [h, parseNumber, show digitsToNat 0 ['8', '5'] = 85 by decide,
      show digitsToNat 0 [] = 0 by decide]
    norm_num
  exact ⟨h85, by rw [h85]; norm_num⟩

/-- C3 counterexample: the claim says readiness is assigned at most once per
parse and never changes afterwards.  Parsing the one-line readiness section
"READY" yields READY, but appending a further line "NOT READY" to the same
section changes the result to NOT_READY — the field was reassigned by a later
line of the same input. -/
theorem c3_counterexample :
    (parse_enhanced_analysis "CURATION READINESS ASSESSMENT:\nREADY").readiness = "READY"
    ∧ (parse_enhanced_analysis
        "CURATION READINESS ASSESSMENT:\nREADY\nNOT READY").readiness = "NOT_READY" := by
  decide

/-- C3 (amended): within the readiness section, every non-blank line
re-evaluates the readiness classification and the last line that fires wins;
the initial UNKNOWN survives only if no line fires.  Stated for an input that
consists of the readiness header followed by arbitrary non-header lines. -/
theorem c3_readiness_last_assignment_wins (text : String) (ls : List String)
    (hsplit : pySplitChar text '\n' = "CURATION READINESS ASSESSMENT:" :: ls)
    (hnomark : ∀ l ∈ ls, sectionOf (pyStrip l) = none) :
    (parse_enhanced_analysis text).readiness = ls.foldl readinessAcc "UNKNOWN" := by
  unfold parse_enhanced_analysis
  rw [finalize_readiness, hsplit, List.foldl_cons,
    show processLine ("", initAnalysis) "CURATION READINESS ASSESSMENT:"
      = ("readiness", initAnalysis) from rfl,
    readiness_section_fold ls initAnalysis hnomark]
  rfl

/-- C3 witness: instantiation of the amended readiness theorem on a concrete
two-line readiness section. -/
theorem c3_witness :
    (parse_enhanced_analysis
        "CURATION READINESS ASSESSMENT:\nREADY FOR CURATION\nUNCLEAR").readiness
      = ["READY FOR CURATION", "UNCLEAR"].foldl readinessAcc "UNKNOWN" :=
  c3_readiness_last_assignment_wins _ _ (by decide) (by decide)

/-- C5 counterexample: the claim says the returned confidence is the first
decimal number found in the confidence-level section.  On a section holding
0.3 and then 0.7 on separate lines, the parser returns 0.7 (each matching
line overwrites the value), not the first number 0.3. -/
theorem c5_counterexample :
    (parse_enhanced_analysis "CONFIDENCE LEVEL:\n0.3\n0.7").confidence = 7/10
    ∧ (7 : ℚ)/10 ≠ 3/10 := by
  have h : (parse_enhanced_analysis "CONFIDENCE LEVEL:\n0.3\n0.7").confidence
      = parseNumber ['0'] ['7'] := rfl
  constructor
  · rw [h, parseNumber, show digitsToNat 0 ['0'] = 0 by decide,
      show digitsToNat 0 ['7'] = 7 by decide]
    norm_num
  · norm_num

/-- C5 (amended): the confidence returned equals the first decimal number of
the LAST line of the confidence-level section that contains one — each
matching line overwrites the previous value — and 0.0 when no section header
ever occurs in the input. -/
theorem c5_confidence_last_matching_line (text1 text2 : String) (ls : List String)
    (h1 : pySplitChar text1 '\n' = "CONFIDENCE LEVEL:" :: ls)
    (h2 : ∀ l ∈ ls, sectionOf (pyStrip l) = none)
    (h3 : ∀ l ∈ pySplitChar text2 '\n', sectionOf (pyStrip l) = none) :
    (parse_enhanced_analysis text1).confidence = ls.foldl confidenceAcc 0
    ∧ (parse_enhanced_analysis text2).confidence = 0 := by
  constructor
  · unfold parse_enhanced_analysis
    rw [finalize_confidence, h1, List.foldl_cons,
      show processLine ("", initAnalysis) "CONFIDENCE LEVEL:"
        = ("confidence", initAnalysis) from rfl,
      confidence_section_fold ls initAnalysis h2]
    rfl
  · unfold parse_enhanced_analysis
    rw [finalize_confidence, no_section_fold (pySplitChar text2 '\n') initAnalysis h3]
    rfl

/-- C5 witness: instantiation of the amended confidence theorem on a concrete
one-line confidence section and a header-free text. -/
theorem c5_witness :
    (parse_enhanced_analysis "CONFIDENCE LEVEL:\n0.55").confidence
        = ["0.55"].foldl confidenceAcc 0
    ∧ (parse_enhanced_analysis "no recognized header in this text").confidence = 0 :=
  c5_confidence_last_matching_line _ _ _ (by decide) (by decide) (by decide)

/-- C6: `factor_based_score` equals `min(1, (len(general) + len(human/animal)
+ len(environmental)) / 16)` for every input; consequently it never exceeds
1.0 and is monotone in the total number of parsed factor names. -/
theorem c6_factor_based_score_formula_monotone (t1 t2 : String) :
    (parse_enhanced_analysis t1).factor_based_score
        = min 1 ((totalFactors (parse_enhanced_analysis t1) : ℚ) / 16)
    ∧ (parse_enhanced_analysis t1).factor_based_score ≤ 1
    ∧ (totalFactors (parse_enhanced_analysis t1) ≤ totalFactors (parse_enhanced_analysis t2) →
        (parse_enhanced_analysis t1).factor_based_score
          ≤ (parse_enhanced_analysis t2).factor_based_score) := by
  have hf : ∀ s : String, (parse_enhanced_analysis s).factor_based_score
      = min 1 ((totalFactors (parse_enhanced_analysis s) : ℚ) / 16) := fun s => rfl
  refine ⟨hf t1, ?_, ?_⟩
  · rw [hf t1]
    exact min_le_left _ _
  · intro hle
    rw [hf t1, hf t2]
    have hcast : (totalFactors (parse_enhanced_analysis t1) : ℚ)
        ≤ (totalFactors (parse_enhanced_analysis t2) : ℚ) := by exact_mod_cast hle
    exact min_le_min le_rfl ((div_le_div_iff_of_pos_right (by norm_num)).mpr hcast)

/-- C6 witness: the score formula and monotonicity evaluated on two concrete
factor sections with two and three general factors. -/
theorem c6_witness :
    (parse_enhanced_analysis
        "FACTOR-BASED ANALYSIS:\nGeneral Factors Present: a, b").factor_based_score
      ≤ (parse_enhanced_analysis
        "FACTOR-BASED ANALYSIS:\nGeneral Factors Present: a, b, c").factor_based_score
    ∧ (parse_enhanced_analysis
        "FACTOR-BASED ANALYSIS:\nGeneral Factors Present: a, b").factor_based_score ≤ 1 := by
  have h := c6_factor_based_score_formula_monotone
    "FACTOR-BASED ANALYSIS:\nGeneral Factors Present: a, b"
    "FACTOR-BASED ANALYSIS:\nGeneral Factors Present: a, b, c"
  exact ⟨h.2.2 (by decide), h.2.1⟩

/-- C7: for every candidate map (including the empty one) and every full
text, the enhancer returns exactly the six canonical field keys followed by
`curation_ready`, `missing_fields` and `curation_preparation_summary` — no
more and no fewer keys, in that order. -/
theorem c7_enhance_output_keys_exact (d : List (String × Value)) (t : String) :
    (enhance_extraction d t).map Prod.fst
      = ["host_species", "body_site", "condition", "sequencing_type", "taxa_level",
         "sample_size", "curation_ready", "missing_fields",
         "curation_preparation_summary"] := by
  simp only [enhance_extraction]
  rw [enhance_inner_fold d t]
  rw [pyDictSet_fresh _ "curation_ready" _ (by rw [enhance_inner_keys]; decide)]
  rw [pyDictSet_fresh _ "missing_fields" _
    (by simp only [List.map_append, enhance_inner_keys, List.map_cons, List.map_nil]; decide)]
  rw [pyDictSet_fresh _ "curation_preparation_summary" _
    (by simp only [List.map_append, enhance_inner_keys, List.map_cons, List.map_nil]; decide)]
  simp only [List.map_append, enhance_inner_keys, List.map_cons, List.map_nil]
  decide

/-- C8: starting from the freshly initialized cache, after any sequence of
store operations each of the three tables holds at most one row per key, and
reading a key returns exactly the most recently stored payload for that key
(`INSERT OR REPLACE` semantics: replace, never append). -/
theorem c8_cache_upsert_replace_unique (ops : List CacheOp) (k : String) :
    countKey (applyOps ops init_database).analysis_cache k ≤ 1
    ∧ countKey (applyOps ops init_database).metadata_cache k ≤ 1
    ∧ countKey (applyOps ops init_database).fulltext_cache k ≤ 1
    ∧ get_analysis_result (applyOps ops init_database) k = lastAnalysisWrite k ops
    ∧ get_metadata (applyOps ops init_database) k = lastMetadataWrite k ops
    ∧ get_fulltext (applyOps ops init_database) k = lastFulltextWrite k ops := by
  obtain ⟨h1, h2, h3⟩ := applyOps_count_all ops init_database k
    (by simp [init_database, countKey]) (by simp [init_database, countKey])
    (by simp [init_database, countKey])
  refine ⟨h1, h2, h3, ?_, ?_, ?_⟩
  · rw [applyOps_get_analysis ops init_database k,
      show get_analysis_result init_database k = none from rfl, orElseO_none_right]
  · rw [applyOps_get_metadata ops init_database k,
      show get_metadata init_database k = none from rfl, orElseO_none_right]
  · rw [applyOps_get_fulltext ops init_database k,
      show get_fulltext init_database k = none from rfl, orElseO_none_right]

/-- C9: `validate_field` never propagates an internal fault: when the
validation body raises (returns an error), the result for that field is the
ABSENT record carrying "Validation error: " plus the exception text as
`reason_if_missing` (confidence 0); and in `enhance_extraction` each
canonical field's output entry depends only on that field's own candidate, so
no other field's result is affected. -/
theorem c9_validation_fault_isolated (field_name text : String) (d : Value) (e : String)
    (herr : validate_field_body field_name text d = Except.error e) :
    validate_field field_name text d
        = create_absent_result field_name ("Validation error: " ++ e)
    ∧ (validate_field field_name text d).status = "ABSENT"
    ∧ (validate_field field_name text d).confidence = 0
    ∧ (validate_field field_name text d).reason_if_missing = "Validation error: " ++ e
    ∧ ∀ (d1 d2 : List (String × Value)) (t' g : String), g ∈ canonical_fields →
        alookup d1 g = alookup d2 g →
        alookup (enhance_extraction d1 t') g = alookup (enhance_extraction d2 t') g := by
  have h1 := validate_field_error field_name text d e herr
  refine ⟨h1, by rw [h1]; rfl, by rw [h1]; rfl, by rw [h1]; rfl, ?_⟩
  intro d1 d2 t' g hg hagree
  rw [alookup_enhance_canonical d1 t' g hg, alookup_enhance_canonical d2 t' g hg, hagree]

/-- C9 witness: a non-string candidate value (an int) makes the body raise
the attribute error; `validate_field` converts it into the ABSENT result with
the message, and adding an unrelated field to the input map leaves the
`host_species` entry of the enhancer output unchanged. -/
theorem c9_witness :
    validate_field "host_species" "the study uses mice"
        (Value.dictV [("primary", Value.intV 5)])
      = create_absent_result "host_species"
          ("Validation error: " ++ "int object has no attribute lower")
    ∧ alookup (enhance_extraction
          [("host_species", Value.dictV [("primary", Value.intV 5)])] "x") "host_species"
      = alookup (enhance_extraction
          [("host_species", Value.dictV [("primary", Value.intV 5)]),
           ("body_site", Value.str "gut")] "x") "host_species" := by
  have h := c9_validation_fault_isolated "host_species" "the study uses mice"
    (Value.dictV [("primary", Value.intV 5)]) "int object has no attribute lower" rfl
  exact ⟨h.1, h.2.2.2.2 _ _ "x" "host_species" (by decide) rfl⟩

/-- C10: every ABSENT result returned by `validate_field` carries confidence
exactly 0, on all paths producing ABSENT (empty or sentinel candidate,
pattern score below 0.4, internal exception). -/
theorem c10_absent_zero_confidence (field_name text : String) (d : Value)
    (h : (validate_field field_name text d).status = "ABSENT") :
    (validate_field field_name text d).confidence = 0 := by
  unfold validate_field at h ⊢
  cases hb : validate_field_body field_name text d with
  | error e =>
    simp only [hb]
    rfl
  | ok r =>
    simp only [hb] at h ⊢
    exact validate_body_ok_absent field_name text d r hb h

/-- C10 witness: an empty candidate map yields the ABSENT short-circuit, and
the returned confidence is 0. -/
theorem c10_witness :
    (validate_field "host_species" "sample text" (Value.dictV [])).confidence = 0 :=
  c10_absent_zero_confidence "host_species" "sample text" (Value.dictV []) (by decide)

/-- C4 counterexample: for field `host_species`, source text and candidate
both "murine", the mouse category has exactly m = 1 pattern matching the
text, the candidate matches it, and it is the best category — the claim then
predicts confidence `min(1, 1*0.2 + 0.6) = 0.8`, but `validate_field`
returns 0.9: the PRESENT band adds a further +0.1 to the pattern score. -/
theorem c4_counterexample :
    (check_pattern_match "host_species" "murine" "murine").confidence = 4/5
    ∧ (categoryMatchList [lits "mouse", lits "mice", lits "murine", lits "c57bl",
        lits "balb/c"] (pyLower "murine")).length = 1
    ∧ (validate_field "host_species" "murine"
        (Value.dictV [("primary", Value.str "murine")])).confidence = 9/10
    ∧ (9 : ℚ)/10 ≠ min 1 ((1 : ℚ) * (1/5) + 3/5) := by
  have hbest : ∀ c ∈ [("human", [lits "human", lits "patient" ++ [Tok.opt 's'],
        lits "participant" ++ [Tok.opt 's'], lits "subject" ++ [Tok.opt 's'],
        lits "volunteer" ++ [Tok.opt 's']]),
      ("mouse", [lits "mouse", lits "mice", lits "murine", lits "c57bl", lits "balb/c"]),
      ("rat", [lits "rat", lits "rats", lits "rattus"]),
      ("environmental", [lits "environmenta" ++ [Tok.opt 'l'], lits "environment",
        lits "indoor", lits "outdoor", lits "built environment", lits "natural environment"]),
      ("mixed", [lits "mixed", lits "combination", lits "both human and"])],
      categoryConfidence c.2 (pyLower "murine") (pyLower "murine")
        ≤ categoryConfidence [lits "mouse", lits "mice", lits "murine", lits "c57bl",
            lits "balb/c"] (pyLower "murine") (pyLower "murine") := by
    intro c hc
    fin_cases hc <;>
      first
        | exact le_refl _
        | exact categoryConfidence_zero_le _ _ _ _ (by decide)
  have hcheck : (check_pattern_match "host_species" "murine" "murine").confidence
      = min 1 ((1 : ℚ) * (1/5) + 3/5) := by
    rw [check_pattern_match_best "host_species" "murine" "murine" _ "mouse"
      [lits "mouse", lits "mice", lits "murine", lits "c57bl", lits "balb/c"]
      rfl (by decide) hbest]
    rw [categoryConfidence_high _ _ _ (by decide) (by decide),
      show (categoryMatchList [lits "mouse", lits "mice", lits "murine", lits "c57bl",
        lits "balb/c"] (pyLower "murine")).length = 1 from by decide]
    norm_num
  have hval := validate_field_present_eval "host_species" "murine"
    (Value.dictV [("primary", Value.str "murine")]) "murine" rfl (by decide) (by decide)
    (by decide) (by decide) (by rw [hcheck]; norm_num [min_def])
  refine ⟨by rw [hcheck]; norm_num [min_def], by decide, ?_, by norm_num [min_def]⟩
  rw [hval, hcheck]
  norm_num [min_def]

/-- C4 (amended): when the best-scoring category has m ≥ 1 patterns matching
the source text and the candidate value itself matches one of them, the
pattern-match score equals `min(1, m*0.2 + 0.6)`; that score is at least 0.8,
so `validate_field` returns status PRESENT and confidence
`min(1, min(1, m*0.2 + 0.6) + 0.1)` — not the bare pattern score the original
claim stated. -/
theorem c4_anchored_confidence_present_band
    (field_name text content : String) (d : Value)
    (cats : List (String × List (List Tok))) (catName : String)
    (pats : List (List Tok)) (m : ℕ)
    (hpat : alookup field_patterns field_name = some cats)
    (hcat : (catName, pats) ∈ cats)
    (hget : getFieldContent field_name d = Except.ok (Value.str content))
    (hne : content ≠ "")
    (hs1 : pyLower content ≠ "unknown") (hs2 : pyLower content ≠ "not specified")
    (hs3 : pyLower content ≠ "")
    (hm : (categoryMatchList pats (pyLower text)).length = m)
    (hm1 : 1 ≤ m)
    (hanchor : ((categoryMatchList pats (pyLower text)).any
        fun p => reSearch p (pyLower content)) = true)
    (hbest : ∀ c ∈ cats, categoryConfidence c.2 (pyLower content) (pyLower text)
        ≤ categoryConfidence pats (pyLower content) (pyLower text)) :
    (check_pattern_match field_name content text).confidence
        = min 1 ((m : ℚ) * (1/5) + 3/5)
    ∧ (validate_field field_name text d).confidence
        = min 1 (min 1 ((m : ℚ) * (1/5) + 3/5) + 1/10)
    ∧ (validate_field field_name text d).status = "PRESENT" := by
  have hneEmpty : (categoryMatchList pats (pyLower text)).isEmpty = false := by
    cases hcm : categoryMatchList pats (pyLower text) with
    | nil =>
      rw [hcm] at hm
      simp at hm
      omega
    | cons a l => rfl
  have hcc : categoryConfidence pats (pyLower content) (pyLower text)
      = min 1 ((m : ℚ) * (1/5) + 3/5) := by
    rw [categoryConfidence_high pats _ _ hneEmpty hanchor, hm]
  have hcheck : (check_pattern_match field_name content text).confidence
      = min 1 ((m : ℚ) * (1/5) + 3/5) := by
    rw [check_pattern_match_best field_name content text cats catName pats hpat hcat hbest,
      hcc]
  have hge : 4/5 ≤ min 1 ((m : ℚ) * (1/5) + 3/5) := by
    apply le_min (by norm_num)
    have hm' : (1 : ℚ) ≤ (m : ℚ) := by exact_mod_cast hm1
    linarith
  have hval := validate_field_present_eval field_name text d content hget hne hs1 hs2 hs3
    (by rw [hcheck]; exact hge)
  refine ⟨hcheck, ?_, by rw [hval]⟩
  rw [hval, hcheck]

/-- C4 witness: the amended theorem instantiated at field `host_species`,
text and candidate "murine", where the mouse category matches with m = 1. -/
theorem c4_witness :
    (validate_field "host_species" "murine"
        (Value.dictV [("primary", Value.str "murine")])).confidence
      = min 1 (min 1 ((1 : ℚ) * (1/5) + 3/5) + 1/10)
    ∧ (validate_field "host_species" "murine"
        (Value.dictV [("primary", Value.str "murine")])).status = "PRESENT" := by
  have h := c4_anchored_confidence_present_band "host_species" "murine" "murine"
    (Value.dictV [("primary", Value.str "murine")]) _ "mouse"
    [lits "mouse", lits "mice", lits "murine", lits "c57bl", lits "balb/c"] 1
    rfl (by decide) rfl (by decide) (by decide) (by decide) (by decide) (by decide)
    (by decide) (by decide)
    (by intro c hc
        fin_cases hc <;>
          first
            | exact le_refl _
            | exact categoryConfidence_zero_le _ _ _ _ (by decide))
  exact ⟨h.2.1, h.2.2⟩

end BioAnalyzer
